import Mathlib

/-
Verification of the layout-core specification of the typst repository
against its source. The repository's own files are
`src/layout/fixed.rs` (the fixed-size container node) and `src/func.rs`
(the `function!` and `body!` macros of the function-extension protocol);
those are embedded directly. The collaborating data types (`Size`,
`Linear`, `Area`, `Areas`, `Feedback`, `Pass`, `FuncHeader`, spans) are
declared elsewhere in the repository and are modelled from the spec, as
marked on each definition.
-/

namespace Typst

/-- Modelled from the spec: an absolute length (`Length`, declared in the
geometry module outside the given sources), taken as a rational number. -/
abbrev Length := ℚ

/-- Modelled from the spec: `Size` is an ordered pair (width, height) of
absolute lengths. -/
structure Size where
  width : Length
  height : Length
deriving DecidableEq, Repr

/-- Modelled from the spec: `Linear` is a length expressed as
`absolute + ratio × reference`; declared in `geom` outside the given
sources. -/
structure Linear where
  abs : Length
  ratio : ℚ
deriving DecidableEq, Repr

/-- Modelled from the spec: `resolve(reference) = absolute + ratio × reference`,
pure and total. -/
def Linear.resolve (l : Linear) (reference : Length) : Length :=
  l.abs + l.ratio * reference

/-- Modelled from the spec: `Area { full, rem }`, the total size of the
current layout region and the space still available within it. The field
order matches the destructuring `let Area { rem, full } = areas.current`
in `src/layout/fixed.rs`. -/
structure Area where
  full : Size
  rem : Size
deriving DecidableEq, Repr

/-- Modelled from the spec: `Areas` is a cursor over a sequence of layout
regions, exposing the active region `current`; any further regions form
the backlog the cursor could advance into. -/
structure Areas where
  current : Area
  backlog : List Area
deriving DecidableEq, Repr

/-- Modelled from the spec: `Areas::once(size)` yields a sequence containing
exactly one region whose `full == rem == size` and which has no successor. -/
def Areas.once (size : Size) : Areas :=
  { current := { full := size, rem := size }, backlog := [] }

/-- Modelled from the spec: advancing the cursor to the successor region,
when one exists. The given sources contain no advancing operation (the
spec notes this as an open question), so the successor is read off the
backlog of the modelled cursor. -/
def Areas.next (a : Areas) : Option Areas :=
  match a.backlog with
  | [] => none
  | r :: rs => some { current := r, backlog := rs }

/-- Modelled from the spec: `LayoutContext` is opaque configuration threaded
through layout; the fixed node passes it to its child unchanged. -/
structure LayoutContext where
  data : Nat
deriving DecidableEq, Repr

/-- The node tree for the synchronous `Layout` protocol. `fixed` embeds the
`NodeFixed` struct of `src/layout/fixed.rs` (optional `Linear` width and
height plus a type-erased child `Node`). `probe` models an arbitrary
primitive leaf implementor of `Layout`: it records the context and area
sequence it is laid out against, so that equalities of `Layouted` results
are observable. -/
inductive Node where
  | fixed (width : Option Linear) (height : Option Linear) (child : Node)
  | probe
deriving DecidableEq, Repr

/-- Modelled from the spec: `Layouted` is the per-node layout result; its
structure is not given, so it is modelled as what the probe leaf observed. -/
inductive Layouted where
  | probed (ctx : LayoutContext) (areas : Areas)
deriving DecidableEq, Repr

/-- Embedding of `Layout::layout`. The `fixed` case is `NodeFixed::layout`
from `src/layout/fixed.rs` lines 16-25: read `Area { rem, full }` from
`areas.current`, resolve each present dimension against `full` and fall
back to `rem`, then lay out the child against `Areas::once` of that size. -/
def Node.layout : Node → LayoutContext → Areas → Layouted
  | .fixed width height child, ctx, areas =>
      let full := areas.current.full
      let rem := areas.current.rem
      let size : Size :=
        { width := (width.map (fun w => w.resolve full.width)).getD rem.width,
          height := (height.map (fun h => h.resolve full.height)).getD rem.height }
      child.layout ctx (Areas.once size)
  | .probe, ctx, areas => .probed ctx areas

/-- The size computed inside `NodeFixed::layout` (`src/layout/fixed.rs`
lines 18-21), written as a standalone function of the node's optional
dimensions and the current area. -/
def NodeFixed.resolvedSize (width height : Option Linear) (a : Area) : Size :=
  { width := (width.map (fun w => w.resolve a.full.width)).getD a.rem.width,
    height := (height.map (fun h => h.resolve a.full.height)).getD a.rem.height }

/-- Modelled from the spec: a source span, a start and end offset into the
original document (the end offset is called `stop` here because `end` is
reserved). -/
structure Span where
  start : Nat
  stop : Nat
deriving DecidableEq, Repr

/-- Modelled from the spec: a value paired with its source span. -/
structure Spanned (α : Type) where
  v : α
  span : Span
deriving DecidableEq, Repr

/-- Modelled from the spec: a diagnostic is a span-tagged human-readable
message. -/
abbrev SpannedError := Spanned String

/-- Modelled from the spec: decorations are span-tagged like errors. -/
abbrev SpannedDecoration := Spanned String

/-- Modelled from the spec: `Feedback` holds an ordered sequence of errors
and an ordered sequence of decorations. -/
structure Feedback where
  errors : List SpannedError
  decorations : List SpannedDecoration
deriving DecidableEq, Repr

/-- Modelled from the spec: `Feedback::new()` starts empty. -/
def Feedback.new : Feedback :=
  { errors := [], decorations := [] }

/-- Modelled from the spec: `extend(other)` concatenates both sequences in
order, the receiver's diagnostics first. -/
def Feedback.extend (f other : Feedback) : Feedback :=
  { errors := f.errors ++ other.errors,
    decorations := f.decorations ++ other.decorations }

/-- Modelled from the spec: `Pass<T>` pairs an output value with its
accumulated feedback. -/
structure Pass (α : Type) where
  output : α
  feedback : Feedback
deriving DecidableEq, Repr

/-- Modelled from the spec: `Pass::new`, as called at the end of the
`function!` macro's generated `parse`. -/
def Pass.new (output : α) (feedback : Feedback) : Pass α :=
  { output := output, feedback := feedback }

/-- Embedding of the `err!` macro as used in `src/func.rs`:
`err!(span; message)` builds a span-tagged error. -/
def err (span : Span) (message : String) : SpannedError :=
  { v := message, span := span }

/-- Modelled from the spec: `ParseContext` is opaque configuration threaded
through parsing. -/
structure ParseContext where
  data : Nat
deriving DecidableEq, Repr

/-- Modelled from the spec: `FuncHeader` is a function invocation's name and
its consumable argument list; `header.args.into_iter()` in the macro visits
the remaining arguments left to right, so the arguments are modelled as a
list of spanned values. -/
structure FuncHeader where
  name : Spanned String
  args : List (Spanned String)
deriving DecidableEq, Repr

/-- Embedding of the `parse` function generated by the `function!` macro
(`src/func.rs` lines 112-139). The implementation's `$code` block, which
receives `&mut header` and `&mut feedback` (with body, context and
metadata captured), is modelled as a function `code` from the header and a
fresh feedback to the constructed value, the drained header, and the
updated feedback. After `code` returns, every argument still in the header
is pushed as one "unexpected argument" error, and the value is packaged
with the feedback into a `Pass`. -/
def functionParse (code : FuncHeader → Feedback → α × FuncHeader × Feedback)
    (header : FuncHeader) : Pass α :=
  let step := code header Feedback.new
  let func := step.1
  let leftover := step.2.1
  let fb := step.2.2
  Pass.new func
    { fb with
      errors := fb.errors ++ leftover.args.map (fun arg => err arg.span "unexpected argument") }

/-- Embedding of `body!(opt: body, ctx, feedback)` (`src/func.rs` lines
182-188): if a body is present, invoke the markup parser (the external
entry point `parse(offset, text, ctx)`, passed here as the argument
`parseMarkup`) on its text starting at its span's start offset, extend the
feedback with the nested pass's feedback, and keep the nested output;
otherwise the slot is `none` and the feedback is untouched. -/
def bodyOpt (parseMarkup : Nat → String → ParseContext → Pass α)
    (body : Option (Spanned String)) (ctx : ParseContext) (feedback : Feedback) :
    Option α × Feedback :=
  match body with
  | none => (none, feedback)
  | some b =>
      let parsed := parseMarkup b.span.start b.v ctx
      (some parsed.output, feedback.extend parsed.feedback)

/-- Embedding of `body!(nope: body, feedback)` (`src/func.rs` lines
190-194): if a body was supplied, push exactly one "unexpected body" error
tagged with the body's span; the body's content is otherwise ignored. -/
def bodyNope (body : Option (Spanned String)) (feedback : Feedback) : Feedback :=
  match body with
  | none => feedback
  | some b => { feedback with errors := feedback.errors ++ [err b.span "unexpected body"] }

/-- C1: for a `NodeFixed` laid out against an area with current
`Area { full, rem }`, a present width `some L` resolves to
`L.resolve full.width` whatever `rem` is, an absent width resolves to
`rem.width` whatever `full` is, symmetrically for the height, and the
child is laid out against the singleton `Areas.once` of that resolved
size. -/
theorem nodeFixed_resolve_rule (w h : Option Linear) (child : Node)
    (ctx : LayoutContext) (areas : Areas) :
    (∀ L : Linear, (NodeFixed.resolvedSize (some L) h areas.current).width
        = L.resolve areas.current.full.width)
    ∧ (NodeFixed.resolvedSize none h areas.current).width = areas.current.rem.width
    ∧ (∀ M : Linear, (NodeFixed.resolvedSize w (some M) areas.current).height
        = M.resolve areas.current.full.height)
    ∧ (NodeFixed.resolvedSize w none areas.current).height = areas.current.rem.height
    ∧ Node.layout (.fixed w h child) ctx areas
        = child.layout ctx (Areas.once (NodeFixed.resolvedSize w h areas.current)) :=
  ⟨fun _ => rfl, rfl, fun _ => rfl, rfl, rfl⟩

/-- C3: laying out a `NodeFixed` produces the same `Layouted` result as
laying out its child directly against `Areas.once` of the node's resolved
size. -/
theorem nodeFixed_roundtrip (w h : Option Linear) (child : Node)
    (ctx : LayoutContext) (areas : Areas) :
    Node.layout (.fixed w h child) ctx areas
      = child.layout ctx (Areas.once (NodeFixed.resolvedSize w h areas.current)) :=
  rfl

/-- C8: `Areas.once S` has current area `{ full := S, rem := S }`, has no
successor region, and consists of exactly that one region. -/
theorem areas_once_spec (S : Size) :
    (Areas.once S).current = { full := S, rem := S }
    ∧ (Areas.once S).next = none
    ∧ (Areas.once S).current :: (Areas.once S).backlog = [{ full := S, rem := S }] :=
  ⟨rfl, rfl, rfl⟩

/-- C9: `Feedback.extend` is associative, and it concatenates the error and
decoration sequences in order, every diagnostic of the receiver preceding
every diagnostic of the argument. -/
theorem feedback_extend_assoc (A B C : Feedback) :
    (A.extend B).extend C = A.extend (B.extend C)
    ∧ (A.extend B).errors = A.errors ++ B.errors
    ∧ (A.extend B).decorations = A.decorations ++ B.decorations := by
  refine ⟨?_, rfl, rfl⟩
  simp [Feedback.extend]

/-- C10: `NodeFixed::layout` hands its child an area sequence whose single
region has `full` and `rem` both equal to the resolved size, so a `Linear`
dimension resolved by a nested fixed node inside it resolves against the
outer node's resolved size rather than the original enclosing `full`. -/
theorem nodeFixed_reframe_invariant (w h : Option Linear) (child grandchild : Node)
    (L M : Linear) (ctx : LayoutContext) (areas : Areas) :
    Node.layout (.fixed w h child) ctx areas
        = child.layout ctx (Areas.once (NodeFixed.resolvedSize w h areas.current))
    ∧ (Areas.once (NodeFixed.resolvedSize w h areas.current)).current.full
        = NodeFixed.resolvedSize w h areas.current
    ∧ (Areas.once (NodeFixed.resolvedSize w h areas.current)).current.rem
        = NodeFixed.resolvedSize w h areas.current
    ∧ Node.layout (.fixed w h (.fixed (some L) (some M) grandchild)) ctx areas
        = grandchild.layout ctx (Areas.once
            { width := L.resolve (NodeFixed.resolvedSize w h areas.current).width,
              height := M.resolve (NodeFixed.resolvedSize w h areas.current).height }) :=
  ⟨rfl, rfl, rfl, rfl⟩

/-- C7: the `parse` generated by the `function!` macro always returns a
`Pass` whose output is the value the implementation constructed, whatever
feedback was accumulated; the output is never discarded on error. -/
theorem functionParse_keeps_output
    (code : FuncHeader → Feedback → α × FuncHeader × Feedback)
    (header : FuncHeader) :
    (functionParse code header).output = (code header Feedback.new).1 :=
  rfl

/-- C2: after the generated `parse` returns, the errors are the
implementation's own errors followed by exactly one "unexpected argument"
diagnostic per argument the implementation left in the header, each tagged
with that argument's span; and when the implementation only drains
arguments (the leftover list is a sublist of the original arguments),
these diagnostics appear in the original left-to-right order. The draining
is performed by `functionParse` itself, uniformly over every
implementation `code`. -/
theorem functionParse_drains_leftover
    (code : FuncHeader → Feedback → α × FuncHeader × Feedback)
    (header : FuncHeader)
    (hdrain : ((code header Feedback.new).2.1).args.Sublist header.args) :
    (functionParse code header).feedback.errors
      = (code header Feedback.new).2.2.errors
        ++ ((code header Feedback.new).2.1).args.map
            (fun arg => err arg.span "unexpected argument")
    ∧ (((code header Feedback.new).2.1).args.map
          (fun arg => err arg.span "unexpected argument")).Sublist
        (header.args.map (fun arg => err arg.span "unexpected argument")) :=
  ⟨rfl, hdrain.map _⟩

/-- Witness for C2 at a concrete implementation that consumes the first of
two arguments: the leftover argument is drained into one span-tagged
"unexpected argument" error, in order. -/
theorem functionParse_drains_leftover_witness :
    (((fun (h : FuncHeader) (fb : Feedback) =>
          ("value", { h with args := h.args.drop 1 }, fb))
        (FuncHeader.mk (Spanned.mk "f" (Span.mk 0 1))
          [Spanned.mk "a" (Span.mk 2 3), Spanned.mk "b" (Span.mk 4 5)])
        Feedback.new).2.1).args.Sublist
      (FuncHeader.mk (Spanned.mk "f" (Span.mk 0 1))
        [Spanned.mk "a" (Span.mk 2 3), Spanned.mk "b" (Span.mk 4 5)]).args
    ∧ (functionParse
        (fun (h : FuncHeader) (fb : Feedback) =>
          ("value", { h with args := h.args.drop 1 }, fb))
        (FuncHeader.mk (Spanned.mk "f" (Span.mk 0 1))
          [Spanned.mk "a" (Span.mk 2 3), Spanned.mk "b" (Span.mk 4 5)])).feedback.errors
      = [err (Span.mk 4 5) "unexpected argument"] :=
  ⟨(List.drop_sublist 1 _),
    (functionParse_drains_leftover
      (fun (h : FuncHeader) (fb : Feedback) =>
        ("value", { h with args := h.args.drop 1 }, fb))
      (FuncHeader.mk (Spanned.mk "f" (Span.mk 0 1))
        [Spanned.mk "a" (Span.mk 2 3), Spanned.mk "b" (Span.mk 4 5)])
      (List.drop_sublist 1 _)).1⟩

/-- C4: `body!(nope: ...)` with a body present pushes exactly one
"unexpected body" error tagged with the body's span and leaves the
decorations alone; with no body it changes nothing; the pushed diagnostic
and the parsed function value are unaffected by the body's content, and
parsing still succeeds with the constructed value as output. -/
theorem bodyNope_spec (b : Spanned String) (feedback : Feedback) :
    (bodyNope (some b) feedback).errors
        = feedback.errors ++ [err b.span "unexpected body"]
    ∧ (bodyNope (some b) feedback).decorations = feedback.decorations
    ∧ bodyNope none feedback = feedback
    ∧ (∀ v : String, bodyNope (some (Spanned.mk v b.span)) feedback
        = bodyNope (some b) feedback)
    ∧ (∀ (x : String) (header : FuncHeader),
        (functionParse (fun h fb => (x, h, bodyNope (some b) fb)) header).output = x) :=
  ⟨rfl, rfl, rfl, fun _ => rfl, fun _ _ => rfl⟩

/-- C5: `body!(opt: ...)` with no body supplied yields an empty body slot
and leaves the feedback exactly as it was, producing no body-related
diagnostics. -/
theorem bodyOpt_absent (parseMarkup : Nat → String → ParseContext → Pass α)
    (ctx : ParseContext) (feedback : Feedback) :
    bodyOpt parseMarkup none ctx feedback = (none, feedback) :=
  rfl

/-- C6: `body!(opt: ...)` with a body present invokes the markup parser on
the body's text starting at the body's span start offset, merges the
nested pass's feedback into the function's feedback, and keeps the nested
output as the body slot's value. -/
theorem bodyOpt_present (parseMarkup : Nat → String → ParseContext → Pass α)
    (b : Spanned String) (ctx : ParseContext) (feedback : Feedback) :
    bodyOpt parseMarkup (some b) ctx feedback
      = (some (parseMarkup b.span.start b.v ctx).output,
          feedback.extend (parseMarkup b.span.start b.v ctx).feedback) :=
  rfl

end Typst
